import Mathlib

/-!
Verification of the Goodreads crawling/extraction pipeline
(`src/Goodread_modules.py`) against its natural-language specification.

The Python source is shallowly embedded: each pure helper becomes a Lean
function over `String`/`List Char`, Python exceptions become `Except Unit`,
Python `None` becomes `Option.none`, and the scrapy `ItemLoader` processor
chains (`MapCompose`, `TakeFirst`, `Compose`, `Join`, `Identity`) are
translated into the explicit list transformations they perform.  Spider
`parse` methods become functions from an abstract page value (one fragment
list per CSS selector used by the source) to the ordered list of emissions
(records and follow-up requests) that the generator would produce.
-/

deriving instance DecidableEq for Except

/-! ## Python string primitives -/

/-- Python `str.strip()` on the character list: drop whitespace at both ends. -/
def pyStripL (l : List Char) : List Char :=
  ((l.dropWhile Char.isWhitespace).reverse.dropWhile Char.isWhitespace).reverse

/-- Python `str.strip()` on strings. -/
def pyStrip (s : String) : String := ⟨pyStripL s.data⟩

/-- Worker for Python `str.split(sep)` with a one-character separator:
splits at every occurrence, keeping empty pieces (`"".split(";") == [""]`). -/
def splitChGo (sep : Char) (cur : List Char) : List Char → List (List Char)
  | [] => [cur.reverse]
  | c :: rest =>
    if c = sep then cur.reverse :: splitChGo sep [] rest
    else splitChGo sep (c :: cur) rest

/-- Python `s.split(sep)` for a one-character separator `sep`. -/
def splitStr (sep : Char) (s : String) : List String :=
  (splitChGo sep [] s.data).map (fun l => ⟨l⟩)

/-- Worker for Python `str.split()` (no argument): split on whitespace runs,
discarding empty tokens. -/
def wsTokensGo (cur : List Char) : List Char → List (List Char)
  | [] => if cur.isEmpty then [] else [cur.reverse]
  | c :: rest =>
    if c.isWhitespace then
      if cur.isEmpty then wsTokensGo [] rest else cur.reverse :: wsTokensGo [] rest
    else wsTokensGo (c :: cur) rest

/-- Python `s.split()`: whitespace-delimited tokens, no empties. -/
def pySplitWS (s : String) : List String := (wsTokensGo [] s.data).map (fun l => ⟨l⟩)

/-- Substring test on character lists (Python's `pat in s`). -/
def containsSub (pat : List Char) : List Char → Bool
  | [] => pat.isEmpty
  | c :: rest => (pat.isPrefixOf (c :: rest)) || containsSub pat rest

/-- Python `pat in s` for strings. -/
def strContains (s pat : String) : Bool := containsSub pat.data s.data

/-- Python `"".join(pieces)`. -/
def pyConcat (txt : List String) : String := ⟨(txt.map String.data).flatten⟩

/-- Python `sep.join(pieces)` (used for the itemloaders `Join` output
processor, whose default separator is a single space). -/
def joinWith (sep : String) : List String → String
  | [] => ""
  | [x] => x
  | x :: y :: rest => x ++ sep ++ joinWith sep (y :: rest)

/-- Python `str.lower()` (ASCII case folding, which covers the source's use). -/
def lowerStr (s : String) : String := ⟨s.data.map Char.toLower⟩

/-- Digit accumulator for the integer literal parsers. -/
def digitsValGo (acc : Nat) : List Char → Option Nat
  | [] => some acc
  | c :: rest =>
    if c.isDigit then digitsValGo (acc * 10 + (c.toNat - 48)) rest else none

/-- Python `int(s)` on strings: strip whitespace, optional sign, then a
nonempty digit run; any other shape raises `ValueError` (here: `none`). -/
def pyInt (s : String) : Option Int :=
  match pyStripL s.data with
  | '-' :: ds => if ds.isEmpty then none else (digitsValGo 0 ds).map (fun n => -(n : Int))
  | '+' :: ds => if ds.isEmpty then none else (digitsValGo 0 ds).map (fun n => (n : Int))
  | ds => if ds.isEmpty then none else (digitsValGo 0 ds).map (fun n => (n : Int))

/-- Python `int(s)` as it behaves inside a `MapCompose` chain: a parse
failure is a raised `ValueError`, which aborts the whole load. -/
def pyIntE (s : String) : Except Unit Int :=
  match pyInt s with
  | some n => .ok n
  | none => .error ()

/-- A parsed decimal literal, kept exact as (signed mantissa, number of
fractional digits); used to model Python `float` on the simple decimal
strings the site serves, without floating-point rounding. -/
structure PyDecimal where
  mantissa : Int
  fracDigits : Nat
deriving DecidableEq, Repr

/-- Python `float(s)` restricted to plain decimal literals
(optional sign, digits, optional single dot): strip, parse sign, split on
the dot, require at least one digit overall.  Anything else raises
`ValueError` (here: `none`). -/
def pyFloat (s : String) : Option PyDecimal :=
  let t := pyStripL s.data
  let (neg, u) :=
    match t with
    | '-' :: r => (true, r)
    | '+' :: r => (false, r)
    | r => (false, r)
  match splitChGo '.' [] u with
  | [ip] =>
    if ip.isEmpty then none
    else (digitsValGo 0 ip).map (fun n => ⟨if neg then -(n : Int) else (n : Int), 0⟩)
  | [ip, fp] =>
    if ip.isEmpty && fp.isEmpty then none
    else
      match digitsValGo 0 ip, digitsValGo 0 fp with
      | some i, some f =>
        let m : Nat := i * 10 ^ fp.length + f
        some ⟨if neg then -(m : Int) else (m : Int), fp.length⟩
      | _, _ => none
  | _ => none

/-- `float(s)` inside a `MapCompose` chain: failure aborts the load. -/
def pyFloatE (s : String) : Except Unit PyDecimal :=
  match pyFloat s with
  | some q => .ok q
  | none => .error ()

/-- Decimal digits of a natural number (own definition so that concrete
values reduce in the kernel). -/
def natDigitsGo (fuel n : Nat) : List Char :=
  match fuel with
  | 0 => []
  | fuel + 1 =>
    if n < 10 then [Char.ofNat (48 + n)]
    else natDigitsGo fuel (n / 10) ++ [Char.ofNat (48 + n % 10)]

/-- Decimal rendering of a natural number. -/
def natToStr (n : Nat) : String := ⟨natDigitsGo (n + 1) n⟩

/-- Two-digit zero-padded rendering (strftime `%m`, `%d`, `%H`, `%M`, `%S`). -/
def pad2 (n : Nat) : String := if n < 10 then "0" ++ natToStr n else natToStr n

/-! ## Field extractors (source lines 15-87) -/

/-- `num_page_extractor` (source line 15): on a truthy (nonempty) string,
return `num_pages.split()[0]`; indexing `[0]` on the empty token list
raises `IndexError` (`.error ()`).  A falsy (empty) string returns `None`. -/
def num_page_extractor (num_pages : String) : Except Unit (Option String) :=
  if num_pages == "" then .ok none
  else
    match pySplitWS num_pages with
    | [] => .error ()
    | t :: _ => .ok (some t)

/-- A datetime value as the six components relevant to the source's
`strftime("%Y-%m-%d %H:%M:%S")` output. -/
structure DateTimeM where
  year : Nat
  month : Nat
  day : Nat
  hour : Nat
  minute : Nat
  second : Nat
deriving DecidableEq, Repr

/-- `datetime.datetime.min`: the earliest representable datetime,
year 1, January 1, midnight. -/
def datetimeMin : DateTimeM := ⟨1, 1, 1, 0, 0, 0⟩

/-- The components a fuzzy date parse actually found in the text; anything
missing is filled from the `default` argument by the library. -/
structure DateParts where
  year : Option Nat
  month : Option Nat
  day : Option Nat
  hour : Option Nat
  minute : Option Nat
  second : Option Nat
deriving DecidableEq, Repr

/-- Fill the missing components of a parse result from the default
datetime, as `dateutil.parser.parse(..., default=d)` does. -/
def mergeDefault (p : DateParts) (d : DateTimeM) : DateTimeM :=
  ⟨p.year.getD d.year, p.month.getD d.month, p.day.getD d.day,
   p.hour.getD d.hour, p.minute.getD d.minute, p.second.getD d.second⟩

/-- A lexer token of the fuzzy date parser: a digit run or a letter run. -/
inductive DUTok where
  | num : List Char → DUTok
  | word : List Char → DUTok
deriving DecidableEq, Repr

/-- Emit the pending token, if any. -/
def flushTok (cur : List Char) (isNum : Bool) : List DUTok :=
  if cur.isEmpty then []
  else if isNum then [DUTok.num cur.reverse] else [DUTok.word cur.reverse]

/-- Tokenizer of the fuzzy date parser: maximal digit runs and letter runs;
all other characters separate tokens. -/
def duTokensGo (cur : List Char) (isNum : Bool) : List Char → List DUTok
  | [] => flushTok cur isNum
  | c :: rest =>
    if c.isDigit then
      if cur.isEmpty then duTokensGo [c] true rest
      else if isNum then duTokensGo (c :: cur) true rest
      else flushTok cur isNum ++ duTokensGo [c] true rest
    else if c.isAlpha then
      if cur.isEmpty then duTokensGo [c] false rest
      else if isNum then flushTok cur isNum ++ duTokensGo [c] false rest
      else duTokensGo (c :: cur) false rest
    else flushTok cur isNum ++ duTokensGo [] true rest

/-- English month names and their usual three-letter abbreviations. -/
def monthNames : List (String × Nat) :=
  [("january", 1), ("february", 2), ("march", 3), ("april", 4), ("may", 5),
   ("june", 6), ("july", 7), ("august", 8), ("september", 9), ("october", 10),
   ("november", 11), ("december", 12),
   ("jan", 1), ("feb", 2), ("mar", 3), ("apr", 4), ("jun", 6), ("jul", 7),
   ("aug", 8), ("sep", 9), ("oct", 10), ("nov", 11), ("dec", 12)]

/-- Recognize a month-name word (case-insensitively). -/
def monthOfWord (w : List Char) : Option Nat :=
  (monthNames.find? (fun p => p.1.data == w.map Char.toLower)).map (fun p => p.2)

/-- Fold the token stream into date components: a month name sets the
month, a four-digit run sets the year, a one-or-two-digit run in 1..31 sets
the day; in fuzzy mode every other token is skipped.  First value wins. -/
def duGo : List DUTok → DateParts → DateParts
  | [], acc => acc
  | DUTok.word w :: rest, acc =>
    match monthOfWord w with
    | some m => duGo rest { acc with month := acc.month <|> some m }
    | none => duGo rest acc
  | DUTok.num d :: rest, acc =>
    if d.length = 4 then
      duGo rest { acc with year := acc.year <|> digitsValGo 0 d }
    else if d.length ≤ 2 then
      match digitsValGo 0 d with
      | some v =>
        if 1 ≤ v ∧ v ≤ 31 then duGo rest { acc with day := acc.day <|> some v }
        else duGo rest acc
      | none => duGo rest acc
    else duGo rest acc

/-- Executable model of the third-party `dateutil.parser.parse(s, fuzzy=True)`
front end: tokenize, collect date components, and fail with
`ParserError` (a `ValueError` subclass, here `none`) when the text contains
no date component at all — in particular on the empty string. -/
def dateutilExtract (s : String) : Option DateParts :=
  let acc := duGo (duTokensGo [] true s.data) ⟨none, none, none, none, none, none⟩
  if acc.year.isNone && acc.month.isNone && acc.day.isNone then none else some acc

/-- `datetime.strftime("%Y-%m-%d %H:%M:%S")`.  (glibc `%Y` does not
zero-pad small years, matching the platform the source targets.) -/
def strftimeYmdHms (d : DateTimeM) : String :=
  natToStr d.year ++ "-" ++ pad2 d.month ++ "-" ++ pad2 d.day ++ " " ++
    pad2 d.hour ++ ":" ++ pad2 d.minute ++ ":" ++ pad2 d.second

/-- `dateutil_parse(date, fuzzy=True, default=dflt)`: a failed parse raises
`ValueError`; a successful one fills missing components from `dflt`. -/
def dateutil_parse (s : String) (dflt : DateTimeM) : Except Unit DateTimeM :=
  match dateutilExtract s with
  | none => .error ()
  | some p => .ok (mergeDefault p dflt)

/-- `safe_parse_date` (source line 21): try the fuzzy parse with
`default=datetime.min` and format the result; `except ValueError` turns the
failure into `None`. -/
def safe_parse_date (s : String) : Option String :=
  match dateutil_parse s datetimeMin with
  | .error _ => none
  | .ok d => some (strftimeYmdHms d)

/-- `extract_publish_dates` (source line 31): keep the lines containing
"published" (case-insensitively), then parse each survivor. -/
def extract_publish_dates (maybe_dates : List String) : List (Option String) :=
  (maybe_dates.filter (fun s => strContains (lowerStr s) "published")).map safe_parse_date

/-- Index of the first occurrence of `lit` in `l`, if any. -/
def firstOcc (lit : List Char) : List Char → Option Nat
  | [] => if lit.isEmpty then some 0 else none
  | c :: rest =>
    if lit.isPrefixOf (c :: rest) then some 0
    else (firstOcc lit rest).map (fun n => n + 1)

/-- Is `l[j]`, ..., `l[j+3]` a run of four digits? -/
def digit4At (l : List Char) (j : Nat) : Bool :=
  ((l.drop j).take 4).length == 4 && ((l.drop j).take 4).all Char.isDigit

/-- The largest position `j ≥ e` at which a four-digit run starts.
With both `.*` in `".*first published.*(\d{4})"` greedy and the match
anchored only at the start (`re.match`), the group captured is the digit
run at this position, where `e` is the end of the first occurrence of the
literal `"first published"`. -/
def lastDigit4From (l : List Char) (e : Nat) : Option Nat :=
  (((List.range (l.length - 3)).filter (fun j => e ≤ j && digit4At l j)).getLast?)

/-- `extract_year` (source line 36): lower-case and strip the text, then
`re.match(".*first published.*(\d{4})", s)` and return group 1.
`re.match` anchors at the start only; `.` does not cross a newline, so the
whole match lives in the prefix before the first `'\n'`; greediness makes
the captured group the last four-digit run at or after the end of the
first `"first published"` occurrence. -/
def extract_year (s : String) : Option String :=
  let cs := pyStripL (s.data.map Char.toLower)
  let line := cs.takeWhile (fun c => c != '\n')
  match firstOcc "first published".data line with
  | none => none
  | some b =>
    match lastDigit4From line (b + 15) with
    | none => none
    | some j => some ⟨(line.drop j).take 4⟩

/-- The dict comprehension of `extract_ratings` (source line 62):
`{5 - i: int(x) for i, x in enumerate(rating_array.split(","))}`,
as an association list in insertion order. -/
def histOfVals (vals : List Int) : List (Int × Int) :=
  vals.enum.map (fun p => ((5 : Int) - (p.1 : Int), p.2))

/-- `extract_ratings` (source line 43), up to the integer values of the
bracketed array: join the fragments, split on `";"`, keep the lines
containing `"renderRatingGraph"` (stripped); no such line means `None`;
otherwise slice the first such line between the first `"["` and the first
`"]"` and parse each comma-separated piece with `int`.  A missing bracket
(`str.index`) or a failing `int` raises (`.error ()`). -/
def extract_ratings_vals (txt : List String) : Except Unit (Option (List Int)) :=
  let codelines := splitStr ';' (pyConcat txt)
  let rating_code :=
    (codelines.filter (fun line => strContains line "renderRatingGraph")).map pyStrip
  match rating_code with
  | [] => .ok none
  | rc :: _ =>
    match rc.data.findIdx? (fun c => c == '['), rc.data.findIdx? (fun c => c == ']') with
    | some a, some b =>
      let rating_array : String := ⟨(rc.data.drop (a + 1)).take (b - (a + 1))⟩
      match (splitStr ',' rating_array).mapM pyInt with
      | some vals => .ok (some vals)
      | none => .error ()
    | _, _ => .error ()

/-- `extract_ratings` (source line 43): the values of the bracketed array,
then the dict `{5 - i: int(x)}`. -/
def extract_ratings (txt : List String) : Except Unit (Option (List (Int × Int))) :=
  (extract_ratings_vals txt).map (fun o => o.map histOfVals)

/-- `filter_asin` (source line 66): keep a truthy value of length 10. -/
def filter_asin (asin : String) : Option String :=
  if !asin.isEmpty && asin.data.length == 10 then some asin else none

/-- `isbn_filter` (source line 72): keep a truthy, 10-character, all-digit
value; otherwise `None`. -/
def isbn_filter (isbn : String) : Option String :=
  if !isbn.isEmpty && isbn.data.length == 10 && isbn.data.all Char.isDigit
  then some isbn else none

/-- `isbn13_filter` (source line 77): 13-character, all-digit. -/
def isbn13_filter (isbn : String) : Option String :=
  if !isbn.isEmpty && isbn.data.length == 13 && isbn.data.all Char.isDigit
  then some isbn else none

/-- `filter_empty` (source line 82): `[v.strip() for v in vals if v.strip()]`. -/
def filter_empty (vals : List String) : List String :=
  (vals.filter (fun v => pyStrip v != "")).map pyStrip

/-- `split_by_newline` (source line 86): `txt.split("\n")`. -/
def split_by_newline (txt : String) : List String := splitStr '\n' txt

/-- After the first `'>'`: the rest of the list, or `none` when there is no
`'>'` (an unclosed `'<'` is then left in place, as the tag regex of
`w3lib.html.remove_tags` would not match it). -/
def dropThroughGt : List Char → Option (List Char)
  | [] => none
  | c :: rest => if c = '>' then some rest else dropThroughGt rest

/-- Fuel-indexed worker for tag removal (fuel bounds the recursion depth so
the definition is structural; `remove_tags` supplies enough fuel). -/
def removeTagsGo : Nat → List Char → List Char
  | 0, l => l
  | _ + 1, [] => []
  | fuel + 1, c :: rest =>
    if c = '<' then
      match dropThroughGt rest with
      | some rest2 => removeTagsGo fuel rest2
      | none => c :: rest
    else c :: removeTagsGo fuel rest

/-- Model of the third-party `w3lib.html.remove_tags`: delete every
`<...>` tag from the markup, leaving the text between tags. -/
def remove_tags (s : String) : String := ⟨removeTagsGo s.data.length s.data⟩

/-! ## Itemloaders processor semantics -/

/-- The `TakeFirst` output processor on string values: the first collected
value that is neither `None` nor the empty string. -/
def pyTakeFirst (l : List String) : Option String := l.find? (fun v => v != "")

/-- `TakeFirst` on collected values that may include `None` entries
(as `publish_date`'s collected list does). -/
def pyTakeFirstOpt (l : List (Option String)) : Option String :=
  l.findSome? (fun o =>
    match o with
    | some s => if s != "" then some s else none
    | none => none)

/-- The `Compose(set, list)` output processor used for `genres` and
`influences`: `list(set(values))`.  Python's `list` of a `set` exposes the
elements in an unspecified (hash) order, so the faithful model is the
finite set of collected fragments. -/
def py_set_list (vals : List String) : Finset String := vals.toFinset

/-- Input chain `MapCompose(str.strip)` followed by the default
`TakeFirst` output processor (fields `title`, `author`, `language`). -/
def strField (vals : List String) : Option String := pyTakeFirst (vals.map pyStrip)

/-- Input chain `MapCompose(str.strip, int)` with `TakeFirst`
(fields `num_ratings`, `num_reviews`): any non-integer fragment raises. -/
def intField (vals : List String) : Except Unit (Option Int) := do
  let ns ← (vals.map pyStrip).mapM pyIntE
  return ns.head?

/-- Input chain `MapCompose(str.strip, float)` with `TakeFirst`
(field `avg_rating`). -/
def floatField (vals : List String) : Except Unit (Option PyDecimal) := do
  let qs ← (vals.map pyStrip).mapM pyFloatE
  return qs.head?

/-- Input chain `MapCompose(str.strip, num_page_extractor, int)` with
`TakeFirst` (field `num_pages`): `MapCompose` drops `None` results between
stages; exceptions abort the load. -/
def numPagesField (vals : List String) : Except Unit (Option Int) := do
  let toks ← (vals.map pyStrip).mapM num_page_extractor
  let ns ← (toks.filterMap id).mapM pyIntE
  return ns.head?

/-- `publish_date`: the input processor `extract_publish_dates` is applied
to each lookup's fragment list separately and the results (which may
contain `None`) are appended, then `TakeFirst`. -/
def publishDateField (rowFrags nobrFrags : List String) : Option String :=
  pyTakeFirstOpt (extract_publish_dates rowFrags ++ extract_publish_dates nobrFrags)

/-- `original_publish_year`: `MapCompose(extract_year, int)` with
`TakeFirst`; `extract_year`'s `None` results are dropped before `int`. -/
def originalYearField (vals : List String) : Except Unit (Option Int) := do
  let ns ← (vals.filterMap extract_year).mapM pyIntE
  return ns.head?

/-- `isbn`: `MapCompose(str.strip, isbn_filter)` with `TakeFirst`, over
the concatenation of the three lookups' fragments (per-element input
processing makes lookup-wise and concatenated processing agree). -/
def isbnField (vals : List String) : Option String :=
  pyTakeFirst ((vals.map pyStrip).filterMap isbn_filter)

/-- `isbn13`: `MapCompose(str.strip, isbn13_filter)` with `TakeFirst`. -/
def isbn13Field (vals : List String) : Option String :=
  pyTakeFirst ((vals.map pyStrip).filterMap isbn13_filter)

/-- `asin`: `MapCompose(filter_asin)` with `TakeFirst` (no strip). -/
def asinField (vals : List String) : Option String :=
  pyTakeFirst (vals.filterMap filter_asin)

/-- `rating_histogram`: `MapCompose(extract_ratings)` with `TakeFirst`:
the extractor runs on each script fragment (`"".join` of one string is
itself), `None` results are dropped, exceptions abort the load. -/
def ratingHistField (vals : List String) : Except Unit (Option (List (Int × Int))) := do
  let hs ← vals.mapM (fun v => extract_ratings [v])
  return (hs.filterMap id).head?

/-- `birth_date`/`death_date`: `MapCompose(safe_parse_date)` with
`TakeFirst`; unparseable fragments are dropped. -/
def dateField (vals : List String) : Option String :=
  pyTakeFirst (vals.filterMap safe_parse_date)

/-- The `about` input chain (source line 146): `Compose(TakeFirst(),
remove_tags, split_by_newline, filter_empty, lambda s: s[1:])`; `Compose`
stops on `None`, so an absent first fragment yields `None`. -/
def aboutInput (vals : List String) : Option (List String) :=
  (pyTakeFirst vals).map (fun v =>
    (filter_empty (split_by_newline (remove_tags v))).drop 1)

/-- The `about` field: the input chain's line list is collected and the
`Join()` output processor (default separator `" "`) joins it; a field with
no collected values stays absent. -/
def aboutField (vals : List String) : Option String :=
  match aboutInput vals with
  | some lines => if lines.isEmpty then none else some (joinWith " " lines)
  | none => none

/-! ## Items, pages and spiders (source lines 90-307) -/

/-- The fragments a book page yields for each CSS selector used by
`BookSpider.parse`, plus the `extract_first` result for the author link. -/
structure BookPage where
  url : String
  selBookTitle : List String
  selAuthorNameSpan : List String
  selRatingCount : List String
  selReviewCount : List String
  selRatingValue : List String
  selNumberOfPages : List String
  selInLanguage : List String
  selDivRow : List String
  selNobrGreyText : List String
  selGenreLinks : List String
  selAwards : List String
  selCharacters : List String
  selPlaces : List String
  selSeries : List String
  selInfoBoxIsbn : List String
  selSpanIsbn : List String
  selInfoBoxRow : List String
  selProtovisScript : List String
  selAuthorLink : Option String
deriving Repr

/-- `BookItem` (source line 90) as loaded by `BookLoader`
(`default_output_processor = TakeFirst()`). -/
structure BookItem where
  url : Option String
  title : Option String
  author : Option String
  num_ratings : Option Int
  num_reviews : Option Int
  avg_rating : Option PyDecimal
  num_pages : Option Int
  language : Option String
  publish_date : Option String
  original_publish_year : Option Int
  isbn : Option String
  isbn13 : Option String
  asin : Option String
  series : Option String
  awards : List String
  places : List String
  characters : List String
  genres : Finset String
  rating_histogram : Option (List (Int × Int))
deriving DecidableEq

/-- `BookSpider.parse`'s loader phase (source lines 240-274): apply each
field's processor chain to its selector's fragments; any processor
exception aborts `load_item` (and hence the whole parse call). -/
def loadBook (p : BookPage) : Except Unit BookItem :=
  match intField p.selRatingCount, intField p.selReviewCount,
      floatField p.selRatingValue, numPagesField p.selNumberOfPages,
      originalYearField p.selNobrGreyText, ratingHistField p.selProtovisScript with
  | .error _, _, _, _, _, _ => .error ()
  | _, .error _, _, _, _, _ => .error ()
  | _, _, .error _, _, _, _ => .error ()
  | _, _, _, .error _, _, _ => .error ()
  | _, _, _, _, .error _, _ => .error ()
  | _, _, _, _, _, .error _ => .error ()
  | .ok num_ratings, .ok num_reviews, .ok avg_rating, .ok num_pages,
    .ok original_publish_year, .ok rating_histogram =>
    .ok {
    url := pyTakeFirst [p.url]
    title := strField p.selBookTitle
    author := strField p.selAuthorNameSpan
    num_ratings := num_ratings
    num_reviews := num_reviews
    avg_rating := avg_rating
    num_pages := num_pages
    language := strField p.selInLanguage
    publish_date := publishDateField p.selDivRow p.selNobrGreyText
    original_publish_year := original_publish_year
    isbn := isbnField (p.selInfoBoxIsbn ++ p.selSpanIsbn ++ p.selInfoBoxRow)
    isbn13 := isbn13Field (p.selInfoBoxIsbn ++ p.selSpanIsbn ++ p.selInfoBoxRow)
    asin := asinField p.selInfoBoxIsbn
    series := pyTakeFirst p.selSeries
    awards := p.selAwards
    places := p.selPlaces
    characters := p.selCharacters
    genres := py_set_list p.selGenreLinks
    rating_histogram := rating_histogram }

/-- What a book-page parse call emits, in order. -/
inductive BEmission where
  | item : BookItem → BEmission
  | followAuthor : String → BEmission
deriving DecidableEq

/-- `BookSpider.parse` (source line 239) as (ordered emissions, aborted?).
The generator yields the loaded item, then evaluates
`response.follow(author_url, ...)` on the `extract_first` result of
`a.authorName::attr(href)`: scrapy's `Response.follow` raises
`ValueError("url can't be None")` when that result is `None`, so the parse
aborts after the item was already delivered; a loader exception aborts
before anything is emitted. -/
def bookParse (p : BookPage) : List BEmission × Bool :=
  match loadBook p with
  | .error _ => ([], true)
  | .ok item =>
    match p.selAuthorLink with
    | some u => ([BEmission.item item, BEmission.followAuthor u], false)
    | none => ([BEmission.item item], true)

/-- The fragments an author page yields for each CSS selector used by
`AuthorSpider`. -/
structure AuthorPage where
  url : String
  selName : List String
  selBirthDate : List String
  selDeathDate : List String
  selGenres : List String
  selInfluences : List String
  selAvgRating : List String
  selReviewCount : List String
  selRatingCount : List String
  selAbout : List String
  selInfluenceAuthorLinks : List String
  selSimilarLink : Option String
  selAllAuthorLinks : List String
deriving Repr

/-- `AuthorItem` (source line 129) as loaded by `AuthorLoader`.
`avg_rating`, `num_ratings` and `num_reviews` only carry a `serializer`,
which is not a processor, so they keep the raw first fragment. -/
structure AuthorItem where
  url : Option String
  name : Option String
  birth_date : Option String
  death_date : Option String
  avg_rating : Option String
  num_ratings : Option String
  num_reviews : Option String
  genres : Finset String
  influences : Finset String
  about : Option String
deriving DecidableEq

/-- `AuthorSpider.parse_author` (source line 205): load every field; no
processor in this chain can raise. -/
def parse_author (p : AuthorPage) : AuthorItem :=
  { url := pyTakeFirst [p.url]
    name := pyTakeFirst p.selName
    birth_date := dateField p.selBirthDate
    death_date := dateField p.selDeathDate
    avg_rating := pyTakeFirst p.selAvgRating
    num_ratings := pyTakeFirst p.selRatingCount
    num_reviews := pyTakeFirst p.selReviewCount
    genres := py_set_list p.selGenres
    influences := py_set_list p.selInfluences
    about := aboutField p.selAbout }

/-- What an author-page parse call emits, in order. -/
inductive AEmission where
  | record : AuthorItem → AEmission
  | follow : String → AEmission
deriving DecidableEq

/-- The constructor's conversion of the loosely-typed `author_crawl`
argument (source line 171): `str(author_crawl).lower() in {"true","yes","y"}`. -/
def author_crawl_flag (s : String) : Bool :=
  ["true", "yes", "y"].contains (lowerStr s)

/-- `AuthorSpider.parse` (source line 175): a URL containing
`"/blog?page="` returns immediately with no output; a URL starting with
the author-show prefix yields the loaded record; with `author_crawl`
disabled the method then returns; otherwise it follows the influence
links, the (truthy) similar-authors link, and every author-show link. -/
def authorParse (author_crawl : Bool) (p : AuthorPage) : List AEmission :=
  if strContains p.url "/blog?page=" then []
  else
    let recs :=
      if "https://www.goodreads.com/author/show/".data.isPrefixOf p.url.data
      then [AEmission.record (parse_author p)] else []
    if author_crawl = false then recs
    else
      recs ++ p.selInfluenceAuthorLinks.map AEmission.follow
        ++ (match p.selSimilarLink with
            | some u => if u != "" then [AEmission.follow u] else []
            | none => [])
        ++ p.selAllAuthorLinks.map AEmission.follow

/-! ## Supporting lemmas -/

theorem containsSub_iff (pat l : List Char) : containsSub pat l = true ↔ pat <:+: l := by
  induction l with
  | nil =>
    simp [containsSub, List.isEmpty_iff]
  | cons c rest ih =>
    simp only [containsSub, Bool.or_eq_true, List.isPrefixOf_iff_prefix, ih,
      List.infix_cons_iff]

theorem firstOcc_occurs {pat l : List Char} {b : Nat} (h : firstOcc pat l = some b) :
    pat <:+: l := by
  induction l generalizing b with
  | nil =>
    unfold firstOcc at h
    by_cases hp : pat.isEmpty
    · rw [List.isEmpty_iff] at hp; subst hp; exact List.nil_infix
    · simp [hp] at h
  | cons c rest ih =>
    by_cases hp : pat.isPrefixOf (c :: rest)
    · exact (List.isPrefixOf_iff_prefix.mp hp).isInfix
    · cases hf : firstOcc pat rest with
      | none => unfold firstOcc at h; rw [hf] at h; simp [hp] at h
      | some n => exact List.infix_cons (ih hf)

theorem wsTokensGo_ne_nil_of_cur {cur : List Char} (l : List Char) (h : cur ≠ []) :
    wsTokensGo cur l ≠ [] := by
  induction l generalizing cur with
  | nil => simp [wsTokensGo, List.isEmpty_iff, h]
  | cons c rest ih =>
    by_cases hw : c.isWhitespace
    · simp only [wsTokensGo, hw, if_true, List.isEmpty_iff, h, if_false]
      exact List.cons_ne_nil _ _
    · simp only [wsTokensGo, hw, if_false]
      exact ih (List.cons_ne_nil c cur)

theorem wsTokensGo_ne_nil {l : List Char}
    (h : l.any (fun c => !c.isWhitespace) = true) : wsTokensGo [] l ≠ [] := by
  induction l with
  | nil => simp at h
  | cons c rest ih =>
    by_cases hw : c.isWhitespace
    · simp only [List.any_cons, hw, Bool.not_true, Bool.false_or] at h
      simpa only [wsTokensGo, hw, if_true, List.isEmpty_nil] using ih h
    · simp only [wsTokensGo, hw, if_false]
      exact wsTokensGo_ne_nil_of_cur rest (List.cons_ne_nil c [])

theorem wsTokensGo_nil_of_all_ws {l : List Char}
    (h : l.all Char.isWhitespace = true) : wsTokensGo [] l = [] := by
  induction l with
  | nil => rfl
  | cons c rest ih =>
    simp only [List.all_cons, Bool.and_eq_true] at h
    simp only [wsTokensGo, h.1, if_true, List.isEmpty_nil]
    exact ih h.2

theorem extract_ratings_ok_some {txt : List String} {m : List (Int × Int)}
    (h : extract_ratings txt = .ok (some m)) :
    ∃ vals : List Int, extract_ratings_vals txt = .ok (some vals) ∧ m = histOfVals vals := by
  unfold extract_ratings at h
  cases hv : extract_ratings_vals txt with
  | error e => rw [hv] at h; simp [Except.map] at h
  | ok o =>
    rw [hv] at h
    cases o with
    | none => simp [Except.map] at h
    | some vals =>
      refine ⟨vals, rfl, ?_⟩
      simpa [Except.map] using h.symm

theorem histOfVals_map_fst {vals : List Int} (h : vals.length = 5) :
    (histOfVals vals).map Prod.fst = [5, 4, 3, 2, 1] := by
  match vals, h with
  | [a, b, c, d, e], _ => rfl

theorem histOfVals_length (vals : List Int) : (histOfVals vals).length = vals.length := by
  simp [histOfVals]

/-! ## Spec-variant definitions (for refinement comparison) -/

/-- The specification's reading of `extract_year`, with the pattern
anchored to the END of the string: succeed only when the lowered, stripped
text ends in four digits with an occurrence of "first published" fitting
before them; return those final four digits. -/
def extract_year_end_anchored (s : String) : Option String :=
  let cs := pyStripL (s.data.map Char.toLower)
  let n := cs.length
  if (decide (4 ≤ n) && ((cs.drop (n - 4)).all Char.isDigit) &&
      (match firstOcc "first published".data cs with
       | some b => decide (b + 15 ≤ n - 4)
       | none => false))
  then some ⟨cs.drop (n - 4)⟩ else none

/-- The specification's reading of the about-field processing: tags
removed, lines split, blank lines discarded, the first remaining line
discarded, and the survivors rejoined with NEWLINES. -/
def aboutFieldNewlineSpec (vals : List String) : Option String :=
  (pyTakeFirst vals).map (fun v =>
    joinWith "\n" (((split_by_newline (remove_tags v)).filter
      (fun line => pyStrip line != "")).drop 1))

/-! ## Concrete sample pages and items -/

/-- A well-formed book page whose only defect is the missing primary
author link (`a.authorName::attr(href)` matched nothing). -/
def bookPageNoAuthor : BookPage :=
  { url := "https://www.goodreads.com/book/show/1"
    selBookTitle := ["Hunger"]
    selAuthorNameSpan := ["Knut Hamsun"]
    selRatingCount := ["120"]
    selReviewCount := ["15"]
    selRatingValue := ["4.25"]
    selNumberOfPages := ["192 pages"]
    selInLanguage := ["English"]
    selDivRow := []
    selNobrGreyText := []
    selGenreLinks := ["Fiction"]
    selAwards := []
    selCharacters := []
    selPlaces := []
    selSeries := []
    selInfoBoxIsbn := []
    selSpanIsbn := []
    selInfoBoxRow := []
    selProtovisScript := []
    selAuthorLink := none }

/-- The record `loadBook` produces for `bookPageNoAuthor`. -/
def bookItemNoAuthor : BookItem :=
  { url := some "https://www.goodreads.com/book/show/1"
    title := some "Hunger"
    author := some "Knut Hamsun"
    num_ratings := some 120
    num_reviews := some 15
    avg_rating := some ⟨425, 2⟩
    num_pages := some 192
    language := some "English"
    publish_date := none
    original_publish_year := none
    isbn := none
    isbn13 := none
    asin := none
    series := none
    awards := []
    places := []
    characters := []
    genres := {"Fiction"}
    rating_histogram := none }

/-- A book page carrying duplicate genre fragments and ordered list
fragments with a duplicate. -/
def bookPageGenres : BookPage :=
  { url := "https://www.goodreads.com/book/show/2"
    selBookTitle := []
    selAuthorNameSpan := []
    selRatingCount := []
    selReviewCount := []
    selRatingValue := []
    selNumberOfPages := []
    selInLanguage := []
    selDivRow := []
    selNobrGreyText := []
    selGenreLinks := ["Fiction", "Drama", "Fiction"]
    selAwards := ["Prize A", "Prize B", "Prize A"]
    selCharacters := []
    selPlaces := []
    selSeries := []
    selInfoBoxIsbn := []
    selSpanIsbn := []
    selInfoBoxRow := []
    selProtovisScript := []
    selAuthorLink := some "https://www.goodreads.com/author/show/2" }

/-- The record `loadBook` produces for `bookPageGenres`. -/
def bookItemGenres : BookItem :=
  { url := some "https://www.goodreads.com/book/show/2"
    title := none
    author := none
    num_ratings := none
    num_reviews := none
    avg_rating := none
    num_pages := none
    language := none
    publish_date := none
    original_publish_year := none
    isbn := none
    isbn13 := none
    asin := none
    series := none
    awards := ["Prize A", "Prize B", "Prize A"]
    places := []
    characters := []
    genres := py_set_list ["Fiction", "Drama", "Fiction"]
    rating_histogram := none }

/-- An author-show page with influence links, a similar-authors link and
further author links, used to check that disabling the author crawl
suppresses every follow-up. -/
def authorPageSample : AuthorPage :=
  { url := "https://www.goodreads.com/author/show/7"
    selName := ["Knut Hamsun"]
    selBirthDate := ["August 4, 1859"]
    selDeathDate := []
    selGenres := ["Fiction", "Fiction"]
    selInfluences := ["Dostoevsky", "Strindberg", "Dostoevsky"]
    selAvgRating := ["4.02"]
    selReviewCount := ["900"]
    selRatingCount := ["12000"]
    selAbout := ["<div>edit data\nNorwegian writer.\nNobel laureate.</div>"]
    selInfluenceAuthorLinks :=
      ["https://www.goodreads.com/author/show/8", "https://www.goodreads.com/author/show/9"]
    selSimilarLink := some "https://www.goodreads.com/author/similar/7"
    selAllAuthorLinks := ["https://www.goodreads.com/author/show/10"] }

/-- An author-show-shaped URL that also contains the blog pagination
marker, with plenty of page content. -/
def authorPageBlog : AuthorPage :=
  { url := "https://www.goodreads.com/author/show/7/blog?page=2"
    selName := ["Knut Hamsun"]
    selBirthDate := []
    selDeathDate := []
    selGenres := ["Fiction"]
    selInfluences := ["Dostoevsky"]
    selAvgRating := []
    selReviewCount := []
    selRatingCount := []
    selAbout := []
    selInfluenceAuthorLinks := ["https://www.goodreads.com/author/show/8"]
    selSimilarLink := some "https://www.goodreads.com/author/similar/7"
    selAllAuthorLinks := ["https://www.goodreads.com/author/show/10"] }

/-! ## Claim theorems -/

/-- C2: `safe_parse_date` is total over strings — every input yields either
a formatted timestamp or `none`, the only library failure for string input
being `ParserError` (a `ValueError` subclass), which the `except
ValueError` arm converts to `None`; `safe_parse_date ""` is `none`; and a
successful parse fills every missing component from
`datetime.min` (year 1, January 1, midnight). -/
theorem safe_parse_date_total_and_defaulting :
    (∀ s : String,
      (dateutilExtract s = none → safe_parse_date s = none) ∧
      (∀ p : DateParts, dateutilExtract s = some p →
        safe_parse_date s = some (strftimeYmdHms (mergeDefault p datetimeMin)))) ∧
    safe_parse_date "" = none := by
  refine ⟨fun s => ⟨fun h => ?_, fun p h => ?_⟩, by decide⟩
  · simp [safe_parse_date, dateutil_parse, h]
  · simp [safe_parse_date, dateutil_parse, h]

/-- C2 witness: the theorem applied at `""` and at `"2000"` (where only the
year is present and month/day/time default to the earliest values). -/
theorem safe_parse_date_total_and_defaulting_witness :
    safe_parse_date "" = none ∧ safe_parse_date "2000" = some "2000-01-01 00:00:00" := by
  constructor
  · exact (safe_parse_date_total_and_defaulting.1 "").1 (by decide)
  · rw [(safe_parse_date_total_and_defaulting.1 "2000").2
      ⟨some 2000, none, none, none, none, none⟩ (by decide)]
    decide

/-- C3: `extract_ratings` splits the joined script text on `";"`, keeps the
lines containing the `renderRatingGraph` marker, and returns `None` when no
such line exists; on `"renderRatingGraph([6,3,2,2,1]);"` it maps the five
bracketed values to star ranks 5,4,3,2,1 in order. -/
theorem extract_ratings_absent_and_roundtrip :
    (∀ txt : List String,
      (∀ line ∈ splitStr ';' (pyConcat txt),
        strContains line "renderRatingGraph" = false) →
      extract_ratings txt = .ok none) ∧
    extract_ratings ["renderRatingGraph([6,3,2,2,1]);"] =
      .ok (some [(5, 6), (4, 3), (3, 2), (2, 2), (1, 1)]) := by
  constructor
  · intro txt h
    have hf : (splitStr ';' (pyConcat txt)).filter
        (fun line => strContains line "renderRatingGraph") = [] := by
      rw [List.filter_eq_nil_iff]
      intro a ha
      simp [h a ha]
    simp [extract_ratings, extract_ratings_vals, hf, Except.map]
  · decide

/-- C3 witness: the theorem's absent case applied to marker-free script
text. -/
theorem extract_ratings_absent_witness :
    extract_ratings ["var x = 1; stars.render(x);"] = .ok none :=
  extract_ratings_absent_and_roundtrip.1 ["var x = 1; stars.render(x);"] (by decide)

/-- C4 counterexample: the claim's invariant fails on an input where
`extract_ratings` returns a histogram built from a three-element array with
a negative entry — the key set is then 3,4,5 (not 1..5) and a value is
negative, because the dict comprehension numbers whatever entries are
present and Python `int` accepts signs. -/
theorem extract_ratings_invariant_cex :
    extract_ratings ["renderRatingGraph([6,3,-2]);"] =
      .ok (some [(5, 6), (4, 3), (3, -2)]) ∧
    ¬((([(5, 6), (4, 3), (3, -2)] : List (Int × Int)).map Prod.fst).toFinset =
        ({1, 2, 3, 4, 5} : Finset Int) ∧
      ∀ p ∈ ([(5, 6), (4, 3), (3, -2)] : List (Int × Int)), 0 ≤ p.2) := by
  decide

/-- C4 amended: when the bracketed array parses to exactly five integers,
the histogram's keys are 5,4,3,2,1 in source order (index 0 ↦ 5 stars,
descending), so the key set is exactly range 1..5; the values are
whatever integers the entries parse to — they are counts (non-negative)
only when the array entries themselves are. -/
theorem extract_ratings_keys_amended :
    ∀ (txt : List String) (m : List (Int × Int)),
      extract_ratings txt = .ok (some m) → m.length = 5 →
      m.map Prod.fst = [5, 4, 3, 2, 1] ∧
      (m.map Prod.fst).toFinset = ({1, 2, 3, 4, 5} : Finset Int) := by
  intro txt m h hlen
  obtain ⟨vals, _, rfl⟩ := extract_ratings_ok_some h
  rw [histOfVals_length] at hlen
  rw [histOfVals_map_fst hlen]
  exact ⟨rfl, by decide⟩

/-- C4 witness: the amended theorem applied to the five-element demo
input. -/
theorem extract_ratings_keys_amended_witness :
    ([(5, 6), (4, 3), (3, 2), (2, 2), (1, 1)] : List (Int × Int)).map Prod.fst =
      [5, 4, 3, 2, 1] ∧
    (([(5, 6), (4, 3), (3, 2), (2, 2), (1, 1)] : List (Int × Int)).map
        Prod.fst).toFinset = ({1, 2, 3, 4, 5} : Finset Int) :=
  extract_ratings_keys_amended ["renderRatingGraph([6,3,2,2,1]);"]
    [(5, 6), (4, 3), (3, 2), (2, 2), (1, 1)] (by decide) (by decide)

/-- C5 counterexample: the pattern is NOT anchored to the end of the
string — `re.match` anchors only at the start, and the source pattern has
no `$` — so on `"first published 1999!"` the code still captures `"1999"`
while the claim's end-anchored reading matches nothing. -/
theorem extract_year_end_anchor_cex :
    extract_year "first published 1999!" = some "1999" ∧
    extract_year_end_anchored "first published 1999!" = none := by
  decide

/-- C5 amended: `extract_year` matches
`".*first published.*(\d{4})"` case-insensitively, anchored at the START
only (the four captured digits need not end the string); whenever it
returns a value, that value is a four-digit string and the lowered,
stripped text contains "first published"; the concrete examples hold, with
`int` turning the captured `"1999"` into `1999`. -/
theorem extract_year_amended :
    (∀ s y, extract_year s = some y →
      y.data.length = 4 ∧ y.data.all Char.isDigit = true ∧
      strContains (pyStrip (lowerStr s)) "first published" = true) ∧
    extract_year "First published January 1st 1999" = some "1999" ∧
    (extract_year "First published January 1st 1999").bind pyInt = some 1999 ∧
    extract_year "no mention" = none := by
  refine ⟨fun s y h => ?_, by decide, by decide, by decide⟩
  simp only [extract_year] at h
  split at h
  · exact absurd h (by simp)
  · rename_i b hb
    split at h
    · exact absurd h (by simp)
    · rename_i j hj
      have hy : y.data =
          (((pyStripL (s.data.map Char.toLower)).takeWhile (fun c => c != '\n')).drop j).take 4 := by
        cases h; rfl
      have hmem := List.mem_of_getLast?_eq_some hj
      rw [List.mem_filter] at hmem
      have hd4 := hmem.2
      rw [Bool.and_eq_true] at hd4
      have hd4' := hd4.2
      rw [digit4At, Bool.and_eq_true] at hd4'
      refine ⟨?_, ?_, ?_⟩
      · rw [hy]; simpa using hd4'.1
      · rw [hy]; exact hd4'.2
      · have hinf := (firstOcc_occurs hb).trans
          ((List.takeWhile_prefix (fun c => c != '\n')).isInfix)
        exact (containsSub_iff _ _).mpr hinf

/-- C5 witness: the amended theorem's shape clause applied to the spec's
concrete example. -/
theorem extract_year_amended_witness :
    ("1999" : String).data.length = 4 ∧ ("1999" : String).data.all Char.isDigit = true ∧
    strContains (pyStrip (lowerStr "First published January 1st 1999"))
      "first published" = true :=
  extract_year_amended.1 "First published January 1st 1999" "1999" (by decide)

/-- C6 counterexample: `num_page_extractor` is not total — a nonempty
all-whitespace input is truthy, `split()` then yields no tokens, and the
`[0]` index raises `IndexError`. -/
theorem num_page_extractor_whitespace_cex :
    num_page_extractor "   " = .error () := by decide

/-- C6 amended: `num_page_extractor` returns `None` on the empty (falsy)
string and the first whitespace-delimited token (discarding what follows,
such as a trailing "pages" unit word) whenever the input has any
non-whitespace character; but on a nonempty all-whitespace string the
`split()[0]` index raises `IndexError`, so it is pure yet not total. -/
theorem num_page_extractor_amended :
    num_page_extractor "" = .ok none ∧
    (∀ s : String, s.data.any (fun c => !c.isWhitespace) = true →
      ∃ t ts, pySplitWS s = t :: ts ∧ num_page_extractor s = .ok (some t)) ∧
    (∀ s : String, s ≠ "" → s.data.all Char.isWhitespace = true →
      num_page_extractor s = .error ()) := by
  refine ⟨by decide, fun s h => ?_, fun s h1 h2 => ?_⟩
  · have hne : wsTokensGo [] s.data ≠ [] := wsTokensGo_ne_nil h
    have hse : (s == "") = false := by
      rw [beq_eq_false_iff_ne]
      intro he
      rw [he] at h
      exact absurd h (by decide)
    cases hw : wsTokensGo [] s.data with
    | nil => exact absurd hw hne
    | cons t ts =>
      refine ⟨⟨t⟩, ts.map (fun l => ⟨l⟩), ?_, ?_⟩
      · simp [pySplitWS, hw]
      · simp [num_page_extractor, hse, pySplitWS, hw]
  · have hw : wsTokensGo [] s.data = [] := wsTokensGo_nil_of_all_ws h2
    simp [num_page_extractor, beq_eq_false_iff_ne.mpr h1, pySplitWS, hw]

/-- C6 witness: the amended theorem's token clause applied to
`"123 pages"`. -/
theorem num_page_extractor_amended_witness :
    ∃ t ts, pySplitWS "123 pages" = t :: ts ∧
      num_page_extractor "123 pages" = .ok (some t) :=
  num_page_extractor_amended.2.1 "123 pages" (by decide)

/-- C1 counterexample: on a book page with no primary author link the
parse does NOT complete cleanly — after the Book record is emitted,
`response.follow(None, ...)` (from `extract_first` returning `None`)
raises, so the abort flag is set even though exactly one emission (the
record, no follow-up) was produced. -/
theorem book_parse_missing_author_cex :
    (bookParse bookPageNoAuthor).2 = true ∧
    (bookParse bookPageNoAuthor).1.length = 1 := by decide

/-- C1 amended: for every book page whose fields load successfully and
whose primary author link is absent, the parse emits the Book record and
zero follow-up requests, but then aborts with an exception from
constructing the author follow-up out of the missing link, instead of
skipping it silently. -/
theorem book_parse_missing_author_amended :
    ∀ (p : BookPage) (item : BookItem),
      loadBook p = .ok item → p.selAuthorLink = none →
      bookParse p = ([BEmission.item item], true) := by
  intro p item h hn
  simp [bookParse, h, hn]

/-- C1 witness: the amended theorem applied to a concrete author-less book
page. -/
theorem book_parse_missing_author_witness :
    bookParse bookPageNoAuthor = ([BEmission.item bookItemNoAuthor], true) :=
  book_parse_missing_author_amended bookPageNoAuthor bookItemNoAuthor (by decide) rfl

/-- C7: on an author-show URL without the blog-listing marker, with the
author-crawl mode disabled, the parse emits exactly the one loaded Author
record and no follow-up request, whatever influence links, similar-authors
link or other author links the page content carries. -/
theorem author_parse_crawl_disabled :
    ∀ p : AuthorPage,
      strContains p.url "/blog?page=" = false →
      "https://www.goodreads.com/author/show/".data.isPrefixOf p.url.data = true →
      authorParse false p = [AEmission.record (parse_author p)] := by
  intro p h1 h2
  simp [authorParse, h1, h2]

/-- C7 witness: the theorem applied to a link-rich author page. -/
theorem author_parse_crawl_disabled_witness :
    authorParse false authorPageSample = [AEmission.record (parse_author authorPageSample)] :=
  author_parse_crawl_disabled authorPageSample (by decide) (by decide)

/-- C8: a URL containing the blog-listing marker `"/blog?page="` makes the
author-page parse emit nothing at all — no record and no follow-up — before
any other logic, for both settings of the author-crawl flag and even for
URLs that also match the author-show prefix. -/
theorem author_parse_blog_skip :
    ∀ (author_crawl : Bool) (p : AuthorPage),
      strContains p.url "/blog?page=" = true →
      authorParse author_crawl p = [] := by
  intro author_crawl p h
  simp [authorParse, h]

/-- C8 witness: the theorem applied, with the crawl enabled, to a page
whose URL starts with the author-show prefix and contains the marker. -/
theorem author_parse_blog_skip_witness :
    authorParse true authorPageBlog = [] :=
  author_parse_blog_skip true authorPageBlog (by decide)

/-- C9 counterexample: the surviving `about` lines are rejoined by the
itemloaders `Join()` output processor, whose default separator is a single
SPACE, not the newline the claim states. -/
theorem about_join_separator_cex :
    aboutField ["<div>edit data\nAlpha\nBeta</div>"] = some "Alpha Beta" ∧
    aboutFieldNewlineSpec ["<div>edit data\nAlpha\nBeta</div>"] = some "Alpha\nBeta" ∧
    ("Alpha Beta" : String) ≠ "Alpha\nBeta" := by decide

/-- C9 amended: the `about` processing removes markup tags, splits into
lines, strips each line and discards the blank ones, discards the first
remaining line (the "edit" boilerplate header), and rejoins the surviving
lines with single spaces (the `Join()` default separator), leaving the
field absent when nothing survives. -/
theorem about_pipeline_amended :
    ∀ (vals : List String) (v : String), pyTakeFirst vals = some v →
      aboutField vals =
        (let lines := (((split_by_newline (remove_tags v)).map pyStrip).filter
            (fun line => line != "")).drop 1
         if lines.isEmpty then none else some (joinWith " " lines)) := by
  intro vals v h
  have hcomm : filter_empty (split_by_newline (remove_tags v)) =
      ((split_by_newline (remove_tags v)).map pyStrip).filter (fun line => line != "") := by
    rw [filter_empty, List.filter_map]
    rfl
  simp [aboutField, aboutInput, h, hcomm]

/-- C9 witness: the amended theorem applied to a concrete fragment. -/
theorem about_pipeline_amended_witness :
    aboutField ["<p>edit data</p>\nFirst line.\nSecond line."] =
      some "First line. Second line." := by
  rw [about_pipeline_amended ["<p>edit data</p>\nFirst line.\nSecond line."]
    "<p>edit data</p>\nFirst line.\nSecond line." (by decide)]
  decide


/-- C10: `genres` and `influences` go through `Compose(set, list)` —
membership in the output is exactly membership among the input fragments,
with duplicates collapsed — while `awards`, `places` and `characters` go
through `Identity()` and keep the original fragment list, order and
duplicates included; `["Fiction","Drama","Fiction"]` collapses to the
two-element set of "Fiction" and "Drama". -/
theorem genres_set_semantics :
    (∀ (l : List String) (x : String), x ∈ py_set_list l ↔ x ∈ l) ∧
    (∀ (p : BookPage) (item : BookItem), loadBook p = .ok item →
      item.genres = py_set_list p.selGenreLinks ∧ item.awards = p.selAwards ∧
      item.places = p.selPlaces ∧ item.characters = p.selCharacters) ∧
    (∀ p : AuthorPage,
      (parse_author p).genres = py_set_list p.selGenres ∧
      (parse_author p).influences = py_set_list p.selInfluences) ∧
    py_set_list ["Fiction", "Drama", "Fiction"] = {"Fiction", "Drama"} ∧
    (py_set_list ["Fiction", "Drama", "Fiction"]).card = 2 := by
  refine ⟨fun l x => List.mem_toFinset, fun p item h => ?_,
    fun p => ⟨rfl, rfl⟩, by decide, by decide⟩
  unfold loadBook at h
  split at h
  all_goals simp at h
  subst h
  exact ⟨rfl, rfl, rfl, rfl⟩

/-- C10 witness: the loader clause applied to a page with duplicate genre
fragments and a duplicated award fragment. -/
theorem genres_set_semantics_witness :
    bookItemGenres.genres = {"Fiction", "Drama"} ∧
    bookItemGenres.awards = ["Prize A", "Prize B", "Prize A"] := by
  have h := genres_set_semantics.2.1 bookPageGenres bookItemGenres rfl
  exact ⟨h.1.trans (by decide), h.2.1⟩
